import Mathlib

/-!
Shallow embedding of the googlesheets-blueprints command-line utilities
(clear_data.py, download_file.py, upload_file.py).

The remote Google Sheets / Drive services are modelled by an explicit
environment (`RemoteEnv`) of pure functions, and each pipeline is embedded
as a function producing the list of remote calls it issues (`Event`s, in
order) together with its `Outcome` (normal completion or `SystemExit`).
Argument parsing, credential staging and local path normalisation are out
of scope, so the embedded entry points start from the already-parsed
argument values, exactly at the point where the Python `main` functions
begin talking to the remote services.
-/

namespace GSB

/-- One entry of the `drives().list()` response, as consumed by
`get_shared_drive_id` (fields `name` and `id`). -/
structure DriveEntry where
  name : String
  id : String
deriving DecidableEq

/-- One entry of the `files().list()` response, as consumed by
`get_spreadsheet_id_by_name` (fields `id` and `name`). -/
structure FileEntry where
  id : String
  name : String
deriving DecidableEq

/-- The two shapes of `files().list()` request the resolver can issue:
the plain call `files().list(q=query)` and the shared-drive-scoped call
`files().list(q=query, supportsAllDrives=True, includeItemsFromAllDrives=True,
corpora="drive", driveId=drive_id, fields=...)`, whose `driveId` may be
`None` when `get_shared_drive_id` found no match. -/
inductive ListCall where
  | plain (q : String)
  | scoped (q : String) (driveId : Option String)
deriving DecidableEq

/-- A remote (or local file-system) call issued by one of the pipelines,
recorded in order of issue. -/
inductive Event where
  | drivesList
  | filesList (call : ListCall)
  | createSpreadsheet (title : String) (range : String)
  | getSpreadsheet (spreadsheetId : String)
  | addSheet (spreadsheetId : String) (title : Option String)
  | valuesBatchUpdate (spreadsheetId : String) (range : String)
      (values : List (List String))
  | valuesClear (spreadsheetId : String) (range : String)
  | valuesGet (spreadsheetId : String) (range : String)
  | writeLocalFile (path : String) (rows : List (List String))
deriving DecidableEq

/-- How a pipeline run ends: normal completion, or `raise SystemExit(code)`. -/
inductive Outcome where
  | ok
  | sysExit (code : Nat)
deriving DecidableEq

/-- The remote services, modelled as pure responders: the visible shared
drives, the answer to each `files().list()` request, the sheet titles of
each spreadsheet (`spreadsheets().get`), the values of each range
(`spreadsheets().values().get`), and the id handed back by
`spreadsheets().create`. -/
structure RemoteEnv where
  drives : List DriveEntry
  filesList : ListCall → List FileEntry
  sheetTitles : String → List String
  valuesGet : String → String → List (List String)
  createResult : String

/-- Python truthiness of an optional string argument (`None` and `""` are
falsy, every other string truthy). -/
def optTruthy : Option String → Bool
  | none => false
  | some s => s != ""

/-- The Drive query string built by `get_spreadsheet_id_by_name`. -/
def queryFor (file_name : String) : String :=
  "mimeType=\"application/vnd.google-apps.spreadsheet\" and name = \""
    ++ file_name ++ "\""

/-- `get_shared_drive_id` (identical in all three scripts): iterate over
`drives['drives']` and overwrite `drive_id` on every exact name match, so
the final value comes from the last matching drive; `None` if no match. -/
def get_shared_drive_id (drives : List DriveEntry) (drive : String) :
    Option String :=
  drives.foldl (fun drive_id d => if d.name == drive then some d.id else drive_id)
    none

/-- `get_spreadsheet_id_by_name` (identical in all three scripts): if a
drive scope is truthy, first list the shared drives and resolve the scope
name, then issue the drive-scoped `files().list()` with whatever
`drive_id` resulted (possibly `None`); otherwise issue the plain
`files().list()`.  The result is the `id` of the first listed file, or
`None` when the listing is empty.  Returns the calls issued and the
resolved id. -/
def get_spreadsheet_id_by_name (env : RemoteEnv) (file_name : String)
    (drive : Option String) : List Event × Option String :=
  let q := queryFor file_name
  if optTruthy drive then
    let drive_id := get_shared_drive_id env.drives (drive.getD "")
    let files := env.filesList (ListCall.scoped q drive_id)
    ([Event.drivesList, Event.filesList (ListCall.scoped q drive_id)],
      files.head?.map (fun f => f.id))
  else
    let files := env.filesList (ListCall.plain q)
    ([Event.filesList (ListCall.plain q)], files.head?.map (fun f => f.id))

/-- `check_workbook_exists` (upload_file.py / download_file.py), pure part:
`[True for sheet in sheets if sheet['properties']['title'] == tab_name]`
is non-empty.  `tab_name` may be `None`, which compares unequal to every
(string) title. -/
def check_workbook_exists (titles : List String) (tab_name : Option String) :
    Bool :=
  titles.any (fun t => some t == tab_name)

/-- The NUL-stripping applied per line before CSV parsing:
`line.replace("\0", "")`. -/
def stripNul (s : String) : String :=
  String.mk (s.data.filter (fun c => !(c == Char.ofNat 0)))

/-- The row test `set(row) == {""}` of upload_file.py: true exactly for a
non-empty row all of whose cells are the empty string. -/
def emptyRowSet (row : List String) : Bool :=
  !row.isEmpty && row.all (fun c => c == "")

/-- The CSV-reading loop of `upload_google_sheets_file`: feed the
NUL-stripped lines to the csv reader (`parse`, abstracting Python's
`csv.reader`) and append each parsed row to `data` unless
`set(row) == {""}`. -/
def readCsvData (parse : List String → List (List String))
    (lines : List String) : List (List String) :=
  (parse (lines.map stripNul)).foldl
    (fun data row => if emptyRowSet row then data else data ++ [row]) []

/-- The range qualification `if tab_name: cell_range = f'{tab_name}!{cell_range}'`
shared by the clear and upload paths. -/
def qualifyRange (tab_name : Option String) (cell_range : String) : String :=
  if optTruthy tab_name then tab_name.getD "" ++ "!" ++ cell_range
  else cell_range

/-- The destination range computed by `upload_google_sheets_file`:
`starting_cell:ZZZ5000000` when a starting cell is truthy, else the full
default, then tab-qualified when a tab name is truthy. -/
def uploadRange (starting_cell : String) (tab_name : Option String) : String :=
  qualifyRange tab_name
    (if starting_cell != "" then starting_cell ++ ":ZZZ5000000"
     else "A1:ZZZ5000000")

/-- `clear_google_sheet` (clear_data.py): when the given spreadsheet id is
falsy, create a spreadsheet titled `file_name` with a named range at
`cell_range` and use the created id; then issue `values().clear` on the
(possibly tab-qualified) range. -/
def clear_google_sheet (env : RemoteEnv) (file_name cell_range : String)
    (spreadsheet_id : String) (tab_name : Option String) : List Event :=
  let created :=
    if spreadsheet_id == "" then
      ([Event.createSpreadsheet file_name cell_range], env.createResult)
    else ([], spreadsheet_id)
  created.1 ++ [Event.valuesClear created.2 (qualifyRange tab_name cell_range)]

/-- `upload_google_sheets_file` (upload_file.py): when the given
spreadsheet id is falsy, create a spreadsheet titled `file_name` with a
named range at `starting_cell`; check whether the workbook (tab) exists
(`spreadsheets().get`) and add it when absent; read the local CSV; then
issue the `values().batchUpdate` write of the collected rows on the
computed range. -/
def upload_google_sheets_file (env : RemoteEnv)
    (parse : List String → List (List String)) (file_name : String)
    (sourceLines : List String) (starting_cell : String)
    (spreadsheet_id : String) (tab_name : Option String) : List Event :=
  let created :=
    if spreadsheet_id == "" then
      ([Event.createSpreadsheet file_name starting_cell], env.createResult)
    else ([], spreadsheet_id)
  let sid := created.2
  let workbook_exists := check_workbook_exists (env.sheetTitles sid) tab_name
  let data := readCsvData parse sourceLines
  created.1 ++ [Event.getSpreadsheet sid]
    ++ (if workbook_exists then [] else [Event.addSheet sid tab_name])
    ++ [Event.valuesBatchUpdate sid (uploadRange starting_cell tab_name) data]

/-- `download_google_sheet_file` (download_file.py): when a tab name is
truthy, check its existence first (`spreadsheets().get`) and exit with
code 1 when absent, else qualify the range; issue `values().get`; when the
response has no values, return without writing; otherwise write the rows
to the local destination file. -/
def download_google_sheet_file (env : RemoteEnv)
    (spreadsheet_id file_name : String) (tab_name : Option String)
    (cell_range destination_file_name : String) : List Event × Outcome :=
  if optTruthy tab_name then
    if check_workbook_exists (env.sheetTitles spreadsheet_id) tab_name then
      let range := tab_name.getD "" ++ "!" ++ cell_range
      let values := env.valuesGet spreadsheet_id range
      if values.isEmpty then
        ([Event.getSpreadsheet spreadsheet_id,
          Event.valuesGet spreadsheet_id range], Outcome.ok)
      else
        ([Event.getSpreadsheet spreadsheet_id,
          Event.valuesGet spreadsheet_id range,
          Event.writeLocalFile destination_file_name values], Outcome.ok)
    else
      ([Event.getSpreadsheet spreadsheet_id], Outcome.sysExit 1)
  else
    let values := env.valuesGet spreadsheet_id cell_range
    if values.isEmpty then
      ([Event.valuesGet spreadsheet_id cell_range], Outcome.ok)
    else
      ([Event.valuesGet spreadsheet_id cell_range,
        Event.writeLocalFile destination_file_name values], Outcome.ok)

/-- The default applied to `--cell-range`:
`'A1:ZZZ5000000' if not args.cell_range else args.cell_range`. -/
def defaultRange (cell_range : String) : String :=
  if cell_range == "" then "A1:ZZZ5000000" else cell_range

/-- The default applied to `--starting-cell`:
`'A1' if not args.starting_cell else args.starting_cell`. -/
def defaultCell (starting_cell : String) : String :=
  if starting_cell == "" then "A1" else starting_cell

/-- `main` of clear_data.py, from the resolver call on: resolve the name;
on a truthy id clear it; on a falsy id use the name itself as the id when
it has at least 44 characters, else `raise SystemExit(1)`. -/
def clearMain (env : RemoteEnv) (file_name : String) (tab_name : Option String)
    (cell_range : String) (drive : Option String) : List Event × Outcome :=
  let cr := defaultRange cell_range
  let res := get_spreadsheet_id_by_name env file_name drive
  if optTruthy res.2 then
    (res.1 ++ clear_google_sheet env file_name cr (res.2.getD "") tab_name,
      Outcome.ok)
  else if 44 ≤ file_name.length then
    (res.1 ++ clear_google_sheet env file_name cr file_name tab_name,
      Outcome.ok)
  else
    (res.1, Outcome.sysExit 1)

/-- `main` of download_file.py, from the resolver call on: resolve the
name; on a falsy id `raise SystemExit(1)` (no length-44 fallback); else
download to the computed destination name. -/
def downloadMain (env : RemoteEnv) (file_name : String)
    (tab_name : Option String) (cell_range : String) (drive : Option String)
    (destination_name : String) : List Event × Outcome :=
  let cr := defaultRange cell_range
  let res := get_spreadsheet_id_by_name env file_name drive
  if optTruthy res.2 then
    let dl := download_google_sheet_file env (res.2.getD "") file_name tab_name
      cr destination_name
    (res.1 ++ dl.1, dl.2)
  else
    (res.1, Outcome.sysExit 1)

/-- `main` of upload_file.py, from the local-file check on: exit 1 when
the source file is missing; resolve the name; on a truthy id upload to it;
on a falsy id use the name itself as the id when it has at least 44
characters, else `raise SystemExit(1)`. -/
def uploadMain (env : RemoteEnv) (parse : List String → List (List String))
    (sourceExists : Bool) (sourceLines : List String) (file_name : String)
    (tab_name : Option String) (starting_cell : String)
    (drive : Option String) : List Event × Outcome :=
  let sc := defaultCell starting_cell
  if !sourceExists then ([], Outcome.sysExit 1)
  else
    let res := get_spreadsheet_id_by_name env file_name drive
    if optTruthy res.2 then
      (res.1 ++ upload_google_sheets_file env parse file_name sourceLines sc
        (res.2.getD "") tab_name, Outcome.ok)
    else if 44 ≤ file_name.length then
      (res.1 ++ upload_google_sheets_file env parse file_name sourceLines sc
        file_name tab_name, Outcome.ok)
    else
      (res.1, Outcome.sysExit 1)

/-- Is this event the `spreadsheets().create` call? -/
def isCreateSpreadsheet : Event → Bool
  | Event.createSpreadsheet _ _ => true
  | _ => false

/-- Is this event the `addSheet` batch mutation? -/
def isAddSheet : Event → Bool
  | Event.addSheet _ _ => true
  | _ => false

/-- Is this event the tab-existence check (`spreadsheets().get`)? -/
def isGetSpreadsheet : Event → Bool
  | Event.getSpreadsheet _ => true
  | _ => false

/-- Is this event a remote mutation (create, add-sheet, values write, or
values clear)? -/
def isRemoteMutation : Event → Bool
  | Event.createSpreadsheet _ _ => true
  | Event.addSheet _ _ => true
  | Event.valuesBatchUpdate _ _ _ => true
  | Event.valuesClear _ _ => true
  | _ => false

/-- Is this event a local file write? -/
def isLocalWrite : Event → Bool
  | Event.writeLocalFile _ _ => true
  | _ => false

/-- A drive listing with two drives of the same name, for exercising
`get_shared_drive_id` on duplicates. -/
def drivesDup : List DriveEntry :=
  [⟨"Marketing", "drive-1"⟩, ⟨"Marketing", "drive-2"⟩]

/-- An environment in which no spreadsheet listing returns any file. -/
def envNoFiles : RemoteEnv where
  drives := []
  filesList := fun _ => []
  sheetTitles := fun _ => ["Sheet1"]
  valuesGet := fun _ _ => []
  createResult := "created-id"

/-- An environment whose file listing answers the plain call and the
drive-scoped call differently, and that has no visible shared drives. -/
def envScopeSensitive : RemoteEnv where
  drives := []
  filesList := fun c =>
    match c with
    | ListCall.plain _ => [⟨"plain-id", "report"⟩]
    | ListCall.scoped _ _ => []
  sheetTitles := fun _ => []
  valuesGet := fun _ _ => []
  createResult := "c"

/-- An environment whose file listing gives the same answer to every
request, with one shared drive whose name matches nothing we ask for. -/
def envUniform : RemoteEnv where
  drives := [⟨"Other", "drive-o"⟩]
  filesList := fun _ => [⟨"uni-id", "report"⟩]
  sheetTitles := fun _ => ["Sheet1"]
  valuesGet := fun _ _ => []
  createResult := "c"

/-- An environment in which the name resolves to `found-id`, whose only
sheet is titled `Tab1`, and whose ranges are all empty. -/
def envFound : RemoteEnv where
  drives := []
  filesList := fun _ => [⟨"found-id", "report"⟩]
  sheetTitles := fun _ => ["Tab1"]
  valuesGet := fun _ _ => []
  createResult := "c"

/-- A concrete stand-in csv reader for witnesses: each line becomes a
one-cell row. -/
def parseCells (lines : List String) : List (List String) :=
  lines.map (fun s => [s])

/-- The append-unless loop of `readCsvData` is a filter. -/
theorem foldl_skip_filter (p : List String → Bool) (l : List (List String)) :
    ∀ acc : List (List String),
      l.foldl (fun data row => if p row then data else data ++ [row]) acc
        = acc ++ l.filter (fun row => !p row) := by
  induction l with
  | nil => intro acc; simp
  | cons a l ih =>
    intro acc
    by_cases h : p a
    · simp [List.filter_cons, h, ih]
    · simp [List.filter_cons, h, ih]

/-- The overwrite-on-match loop of `get_shared_drive_id` returns the id of
the last matching entry (or the accumulator when none matches). -/
theorem foldl_last_match (name : String) (ds : List DriveEntry) :
    ∀ acc : Option String,
      ds.foldl (fun drive_id d => if d.name == name then some d.id else drive_id)
          acc
        = ((ds.reverse.find? (fun d => d.name == name)).map
            (fun d => some d.id)).getD acc := by
  induction ds with
  | nil => intro acc; simp
  | cons d tl ih =>
    intro acc
    simp only [List.foldl_cons, List.reverse_cons, List.find?_append, ih]
    cases htl : tl.reverse.find? (fun d => d.name == name) with
    | some x => simp
    | none =>
      by_cases h : d.name == name
      · simp [List.find?, h]
      · simp [List.find?, h]

/-- The resolver issues only listing calls: none of its events is a remote
mutation, a spreadsheet creation, or a local write. -/
theorem resolver_no_mutation (env : RemoteEnv) (file_name : String)
    (drive : Option String) :
    ∀ e ∈ (get_spreadsheet_id_by_name env file_name drive).1,
      isRemoteMutation e = false ∧ isCreateSpreadsheet e = false
        ∧ isLocalWrite e = false := by
  intro e he
  unfold get_spreadsheet_id_by_name at he
  by_cases h : optTruthy drive
  · simp only [h, if_true] at he
    simp only [List.mem_cons, List.mem_singleton, List.not_mem_nil,
      or_false] at he
    rcases he with rfl | rfl <;> exact ⟨rfl, rfl, rfl⟩
  · simp only [h, Bool.false_eq_true, if_false] at he
    simp only [List.mem_singleton] at he
    subst he
    exact ⟨rfl, rfl, rfl⟩

/-- The tab-existence check with a string tab name answers membership of
the name among the sheet titles. -/
theorem check_workbook_exists_some (titles : List String) (t : String) :
    check_workbook_exists titles (some t) = true ↔ t ∈ titles := by
  simp [check_workbook_exists]

/-- The tab-existence check with `tab_name = None` is always false: a
(string) sheet title never equals `None`. -/
theorem check_workbook_exists_none (titles : List String) :
    check_workbook_exists titles none = false := by
  simp [check_workbook_exists]

/-- A string with at least 44 characters is non-empty. -/
theorem ne_empty_of_44_le_length (s : String) (h : 44 ≤ s.length) :
    s ≠ "" := by
  intro hs
  subst hs
  exact absurd h (by decide)

/-- clear `main` with an unresolved id and a short name: only the resolver
trace, then exit 1. -/
theorem clearMain_not_found (env : RemoteEnv) (file_name : String)
    (tab_name : Option String) (cell_range : String) (drive : Option String)
    (hnt : optTruthy (get_spreadsheet_id_by_name env file_name drive).2 = false)
    (h44 : ¬ 44 ≤ file_name.length) :
    clearMain env file_name tab_name cell_range drive
      = ((get_spreadsheet_id_by_name env file_name drive).1,
         Outcome.sysExit 1) := by
  simp [clearMain, hnt, h44]

/-- download `main` with an unresolved id: only the resolver trace, then
exit 1. -/
theorem downloadMain_not_found (env : RemoteEnv) (file_name : String)
    (tab_name : Option String) (cell_range : String) (drive : Option String)
    (destination_name : String)
    (hnt : optTruthy (get_spreadsheet_id_by_name env file_name drive).2 = false) :
    downloadMain env file_name tab_name cell_range drive destination_name
      = ((get_spreadsheet_id_by_name env file_name drive).1,
         Outcome.sysExit 1) := by
  simp [downloadMain, hnt]

/-- upload `main` with an unresolved id and a short name: only the
resolver trace, then exit 1. -/
theorem uploadMain_not_found (env : RemoteEnv)
    (parse : List String → List (List String)) (sourceLines : List String)
    (file_name : String) (tab_name : Option String) (starting_cell : String)
    (drive : Option String)
    (hnt : optTruthy (get_spreadsheet_id_by_name env file_name drive).2 = false)
    (h44 : ¬ 44 ≤ file_name.length) :
    uploadMain env parse true sourceLines file_name tab_name starting_cell drive
      = ((get_spreadsheet_id_by_name env file_name drive).1,
         Outcome.sysExit 1) := by
  simp [uploadMain, hnt, h44]

/-- `upload_google_sheets_file` on a non-empty spreadsheet id: no creation;
existence check, conditional add-sheet, then the write, in that order. -/
theorem upload_file_trace (env : RemoteEnv)
    (parse : List String → List (List String)) (file_name : String)
    (sourceLines : List String) (starting_cell spreadsheet_id : String)
    (tab_name : Option String) (hsid : (spreadsheet_id == "") = false) :
    upload_google_sheets_file env parse file_name sourceLines starting_cell
        spreadsheet_id tab_name
      = [Event.getSpreadsheet spreadsheet_id]
        ++ (if check_workbook_exists (env.sheetTitles spreadsheet_id) tab_name
            then [] else [Event.addSheet spreadsheet_id tab_name])
        ++ [Event.valuesBatchUpdate spreadsheet_id
              (uploadRange starting_cell tab_name)
              (readCsvData parse sourceLines)] := by
  simp [upload_google_sheets_file, hsid]

/-- No event of `upload_google_sheets_file` on a non-empty spreadsheet id
is a spreadsheet creation. -/
theorem upload_file_no_create (env : RemoteEnv)
    (parse : List String → List (List String)) (file_name : String)
    (sourceLines : List String) (starting_cell spreadsheet_id : String)
    (tab_name : Option String) (hsid : (spreadsheet_id == "") = false) :
    ∀ e ∈ upload_google_sheets_file env parse file_name sourceLines
        starting_cell spreadsheet_id tab_name,
      isCreateSpreadsheet e = false := by
  intro e he
  rw [upload_file_trace env parse file_name sourceLines starting_cell
    spreadsheet_id tab_name hsid] at he
  by_cases hwb :
      check_workbook_exists (env.sheetTitles spreadsheet_id) tab_name
  · simp [hwb] at he
    rcases he with rfl | rfl <;> rfl
  · simp [hwb] at he
    rcases he with rfl | rfl | rfl <;> rfl

/-- Claim C1 counterexample: with no resolver match and the 6-character
destination name `report`, the upload pipeline exits with code 1 and
creates no spreadsheet — it does not create a spreadsheet titled `report`
and proceed as the claim states. -/
theorem c1_counterexample :
    (get_spreadsheet_id_by_name envNoFiles "report" none).2 = none ∧
    "report".length < 44 ∧
    (uploadMain envNoFiles parseCells true ["a,b"] "report" none "A1" none).2
      = Outcome.sysExit 1 ∧
    ∀ e ∈ (uploadMain envNoFiles parseCells true ["a,b"] "report" none "A1"
        none).1, isCreateSpreadsheet e = false := by
  decide

/-- Claim C1 (amended): when the resolver returns NotFound and the
destination name is shorter than 44 characters, upload treats the
situation exactly as clear and download do — exit code 1 and no
spreadsheet creation.  The create-with-named-range branch does exist in
`upload_google_sheets_file`, but only fires when that helper is handed an
empty spreadsheet id, which `main` never does. -/
theorem c1_upload_fails_like_clear_download (env : RemoteEnv)
    (parse : List String → List (List String)) (sourceLines : List String)
    (file_name : String) (tab_name : Option String)
    (starting_cell cell_range : String) (drive : Option String)
    (destination_name : String)
    (hres : (get_spreadsheet_id_by_name env file_name drive).2 = none)
    (hlen : file_name.length < 44) :
    (uploadMain env parse true sourceLines file_name tab_name starting_cell
        drive).2 = Outcome.sysExit 1 ∧
    (∀ e ∈ (uploadMain env parse true sourceLines file_name tab_name
        starting_cell drive).1, isCreateSpreadsheet e = false) ∧
    (clearMain env file_name tab_name cell_range drive).2
      = Outcome.sysExit 1 ∧
    (downloadMain env file_name tab_name cell_range drive
        destination_name).2 = Outcome.sysExit 1 ∧
    (upload_google_sheets_file env parse file_name sourceLines
        (defaultCell starting_cell) "" tab_name).head?
      = some (Event.createSpreadsheet file_name (defaultCell starting_cell)) := by
  have hnt : optTruthy (get_spreadsheet_id_by_name env file_name drive).2
      = false := by rw [hres]; rfl
  have h44 : ¬ 44 ≤ file_name.length := Nat.not_le.mpr hlen
  refine ⟨?_, ?_, ?_, ?_, ?_⟩
  · rw [uploadMain_not_found env parse sourceLines file_name tab_name
      starting_cell drive hnt h44]
  · rw [uploadMain_not_found env parse sourceLines file_name tab_name
      starting_cell drive hnt h44]
    intro e he
    exact (resolver_no_mutation env file_name drive e he).2.1
  · rw [clearMain_not_found env file_name tab_name cell_range drive hnt h44]
  · rw [downloadMain_not_found env file_name tab_name cell_range drive
      destination_name hnt]
  · simp [upload_google_sheets_file]

/-- Witness for the amended C1 at a concrete input. -/
theorem c1_witness :
    ((get_spreadsheet_id_by_name envNoFiles "sales" none).2 = none ∧
      "sales".length < 44) ∧
    ((uploadMain envNoFiles parseCells true ["x"] "sales" none "" none).2
        = Outcome.sysExit 1 ∧
      (∀ e ∈ (uploadMain envNoFiles parseCells true ["x"] "sales" none ""
          none).1, isCreateSpreadsheet e = false) ∧
      (clearMain envNoFiles "sales" none "" none).2 = Outcome.sysExit 1 ∧
      (downloadMain envNoFiles "sales" none "" none "out.csv").2
        = Outcome.sysExit 1 ∧
      (upload_google_sheets_file envNoFiles parseCells "sales" ["x"]
          (defaultCell "") "" none).head?
        = some (Event.createSpreadsheet "sales" (defaultCell ""))) :=
  ⟨⟨by decide, by decide⟩,
    c1_upload_fails_like_clear_download envNoFiles parseCells ["x"] "sales"
      none "" "" none "out.csv" (by decide) (by decide)⟩

/-- Claim C2 counterexample: in `envScopeSensitive` the drive scope
`Team Drive` matches no visible shared drive, yet resolving with the scope
returns nothing while resolving without it returns `plain-id` — the
drive-scoped listing call is still issued, so resolution does not proceed
as if no scope had been given. -/
theorem c2_counterexample :
    get_shared_drive_id envScopeSensitive.drives "Team Drive" = none ∧
    (get_spreadsheet_id_by_name envScopeSensitive "report"
        (some "Team Drive")).2 = none ∧
    (get_spreadsheet_id_by_name envScopeSensitive "report" none).2
      = some "plain-id" ∧
    (get_spreadsheet_id_by_name envScopeSensitive "report"
        (some "Team Drive")).2
      ≠ (get_spreadsheet_id_by_name envScopeSensitive "report" none).2 := by
  decide

/-- Claim C2 (amended): with a drive-scope name matching none of the
visible shared drives, the resolver does not fall back to the unscoped
listing — it still issues the drive-scoped `files().list()` call, with
`driveId = None`; its result agrees with the unscoped resolution only when
the backend answers that scoped-without-id request exactly as the plain
request. -/
theorem c2_unmatched_scope_still_scoped (env : RemoteEnv)
    (file_name d : String) (hd : d ≠ "")
    (hnone : get_shared_drive_id env.drives d = none) :
    get_spreadsheet_id_by_name env file_name (some d)
      = ([Event.drivesList,
          Event.filesList (ListCall.scoped (queryFor file_name) none)],
         (env.filesList
            (ListCall.scoped (queryFor file_name) none)).head?.map
           (fun f => f.id)) ∧
    ((∀ q, env.filesList (ListCall.scoped q none)
        = env.filesList (ListCall.plain q)) →
      (get_spreadsheet_id_by_name env file_name (some d)).2
        = (get_spreadsheet_id_by_name env file_name none).2) := by
  have htr : optTruthy (some d) = true := by simp [optTruthy, hd]
  constructor
  · simp [get_spreadsheet_id_by_name, htr, hnone]
  · intro huni
    simp [get_spreadsheet_id_by_name, htr, hnone, huni, optTruthy, hd]

/-- Witness for the amended C2 at a concrete input: in `envUniform` the
backend answers every listing identically, so the unmatched scope yields
the same resolution as no scope. -/
theorem c2_witness :
    (get_spreadsheet_id_by_name envUniform "report" (some "Team Drive")).2
      = (get_spreadsheet_id_by_name envUniform "report" none).2 :=
  (c2_unmatched_scope_still_scoped envUniform "report" "Team Drive"
    (by decide) (by decide)).2 (fun _ => rfl)

/-- Claim C3 counterexample: among two visible drives both named
`Marketing`, the first has id `drive-1`, but `get_shared_drive_id`
resolves to `drive-2` — the last match, not the first. -/
theorem c3_counterexample :
    (drivesDup.filter (fun d => d.name == "Marketing")).length = 2 ∧
    ((drivesDup.filter (fun d => d.name == "Marketing")).head?.map
        (fun d => d.id)) = some "drive-1" ∧
    get_shared_drive_id drivesDup "Marketing" = some "drive-2" ∧
    get_shared_drive_id drivesDup "Marketing" ≠ some "drive-1" := by
  decide

/-- Claim C3 (amended): `get_shared_drive_id` resolves a drive-scope name
to the id of the LAST drive with exactly that name in listing order (the
loop overwrites on every match), and to `None` when no drive matches. -/
theorem c3_last_match_wins (drives : List DriveEntry) (name : String) :
    get_shared_drive_id drives name
      = (drives.reverse.find? (fun d => d.name == name)).map
          (fun d => d.id) := by
  unfold get_shared_drive_id
  rw [foldl_last_match]
  cases drives.reverse.find? (fun d => d.name == name) <;> simp

/-- Claim C4: with no resolver match and a name of length at least 44,
clear and upload use the name string itself as the spreadsheet id, issue
the clear and the write directly on it, and create no spreadsheet. -/
theorem c4_long_name_literal_id (env : RemoteEnv)
    (parse : List String → List (List String)) (sourceLines : List String)
    (file_name : String) (tab_name : Option String)
    (cell_range starting_cell : String) (drive : Option String)
    (hres : (get_spreadsheet_id_by_name env file_name drive).2 = none)
    (h44 : 44 ≤ file_name.length) :
    (clearMain env file_name tab_name cell_range drive).2 = Outcome.ok ∧
    Event.valuesClear file_name
        (qualifyRange tab_name (defaultRange cell_range))
      ∈ (clearMain env file_name tab_name cell_range drive).1 ∧
    (∀ e ∈ (clearMain env file_name tab_name cell_range drive).1,
      isCreateSpreadsheet e = false) ∧
    (uploadMain env parse true sourceLines file_name tab_name starting_cell
        drive).2 = Outcome.ok ∧
    Event.valuesBatchUpdate file_name
        (uploadRange (defaultCell starting_cell) tab_name)
        (readCsvData parse sourceLines)
      ∈ (uploadMain env parse true sourceLines file_name tab_name
          starting_cell drive).1 ∧
    (∀ e ∈ (uploadMain env parse true sourceLines file_name tab_name
        starting_cell drive).1, isCreateSpreadsheet e = false) := by
  have hnt : optTruthy (get_spreadsheet_id_by_name env file_name drive).2
      = false := by rw [hres]; rfl
  have hne : (file_name == "") = false := by
    simp [ne_empty_of_44_le_length file_name h44]
  have hclear : clearMain env file_name tab_name cell_range drive
      = ((get_spreadsheet_id_by_name env file_name drive).1
          ++ clear_google_sheet env file_name (defaultRange cell_range)
              file_name tab_name, Outcome.ok) := by
    simp [clearMain, hnt, h44]
  have hupload : uploadMain env parse true sourceLines file_name tab_name
        starting_cell drive
      = ((get_spreadsheet_id_by_name env file_name drive).1
          ++ upload_google_sheets_file env parse file_name sourceLines
              (defaultCell starting_cell) file_name tab_name, Outcome.ok) := by
    simp [uploadMain, hnt, h44]
  refine ⟨?_, ?_, ?_, ?_, ?_, ?_⟩
  · rw [hclear]
  · rw [hclear]
    simp [clear_google_sheet, hne]
  · rw [hclear]
    intro e he
    rcases List.mem_append.mp he with h | h
    · exact (resolver_no_mutation env file_name drive e h).2.1
    · simp [clear_google_sheet, hne] at h
      subst h
      rfl
  · rw [hupload]
  · rw [hupload]
    rw [upload_file_trace env parse file_name sourceLines
      (defaultCell starting_cell) file_name tab_name hne]
    simp
  · rw [hupload]
    intro e he
    rcases List.mem_append.mp he with h | h
    · exact (resolver_no_mutation env file_name drive e h).2.1
    · exact upload_file_no_create env parse file_name sourceLines
        (defaultCell starting_cell) file_name tab_name hne e h

/-- Witness for C4 at a concrete input: a 44-character name. -/
theorem c4_witness :
    ((get_spreadsheet_id_by_name envNoFiles
        "01234567890123456789012345678901234567890123" none).2 = none ∧
      44 ≤ "01234567890123456789012345678901234567890123".length) ∧
    ((clearMain envNoFiles "01234567890123456789012345678901234567890123"
        none "" none).2 = Outcome.ok ∧
      Event.valuesClear "01234567890123456789012345678901234567890123"
          (qualifyRange none (defaultRange ""))
        ∈ (clearMain envNoFiles
            "01234567890123456789012345678901234567890123" none "" none).1 ∧
      (∀ e ∈ (clearMain envNoFiles
          "01234567890123456789012345678901234567890123" none "" none).1,
        isCreateSpreadsheet e = false) ∧
      (uploadMain envNoFiles parseCells true ["x"]
          "01234567890123456789012345678901234567890123" none "A1" none).2
        = Outcome.ok ∧
      Event.valuesBatchUpdate "01234567890123456789012345678901234567890123"
          (uploadRange (defaultCell "A1") none) (readCsvData parseCells ["x"])
        ∈ (uploadMain envNoFiles parseCells true ["x"]
            "01234567890123456789012345678901234567890123" none "A1"
            none).1 ∧
      (∀ e ∈ (uploadMain envNoFiles parseCells true ["x"]
          "01234567890123456789012345678901234567890123" none "A1" none).1,
        isCreateSpreadsheet e = false)) :=
  ⟨⟨by decide, by decide⟩,
    c4_long_name_literal_id envNoFiles parseCells ["x"]
      "01234567890123456789012345678901234567890123" none "" "A1" none
      (by decide) (by decide)⟩

/-- Claim C5: with no resolver match and a name shorter than 44
characters, clear and download exit with code 1 having issued no remote
mutating call (no create, clear, add-sheet, or values write). -/
theorem c5_short_name_hard_failure (env : RemoteEnv) (file_name : String)
    (tab_name : Option String) (cell_range : String) (drive : Option String)
    (destination_name : String)
    (hres : (get_spreadsheet_id_by_name env file_name drive).2 = none)
    (hlen : file_name.length < 44) :
    (clearMain env file_name tab_name cell_range drive).2
      = Outcome.sysExit 1 ∧
    (∀ e ∈ (clearMain env file_name tab_name cell_range drive).1,
      isRemoteMutation e = false) ∧
    (downloadMain env file_name tab_name cell_range drive
        destination_name).2 = Outcome.sysExit 1 ∧
    (∀ e ∈ (downloadMain env file_name tab_name cell_range drive
        destination_name).1, isRemoteMutation e = false) := by
  have hnt : optTruthy (get_spreadsheet_id_by_name env file_name drive).2
      = false := by rw [hres]; rfl
  have h44 : ¬ 44 ≤ file_name.length := Nat.not_le.mpr hlen
  refine ⟨?_, ?_, ?_, ?_⟩
  · rw [clearMain_not_found env file_name tab_name cell_range drive hnt h44]
  · rw [clearMain_not_found env file_name tab_name cell_range drive hnt h44]
    intro e he
    exact (resolver_no_mutation env file_name drive e he).1
  · rw [downloadMain_not_found env file_name tab_name cell_range drive
      destination_name hnt]
  · rw [downloadMain_not_found env file_name tab_name cell_range drive
      destination_name hnt]
    intro e he
    exact (resolver_no_mutation env file_name drive e he).1

/-- Witness for C5 at a concrete input. -/
theorem c5_witness :
    ((get_spreadsheet_id_by_name envNoFiles "budget" none).2 = none ∧
      "budget".length < 44) ∧
    ((clearMain envNoFiles "budget" (some "Tab1") "" none).2
        = Outcome.sysExit 1 ∧
      (∀ e ∈ (clearMain envNoFiles "budget" (some "Tab1") "" none).1,
        isRemoteMutation e = false) ∧
      (downloadMain envNoFiles "budget" (some "Tab1") "" none "out.csv").2
        = Outcome.sysExit 1 ∧
      (∀ e ∈ (downloadMain envNoFiles "budget" (some "Tab1") ""
          none "out.csv").1, isRemoteMutation e = false)) :=
  ⟨⟨by decide, by decide⟩,
    c5_short_name_hard_failure envNoFiles "budget" (some "Tab1") "" none
      "out.csv" (by decide) (by decide)⟩

/-- Claim C6: for a (non-empty) tab name absent from the spreadsheet's
sheet titles, upload issues exactly one add-sheet mutation with that title
before the values write, while download exits with code 1 and writes no
local file. -/
theorem c6_absent_tab (env : RemoteEnv)
    (parse : List String → List (List String)) (sourceLines : List String)
    (file_name spreadsheet_id t starting_cell cell_range dest : String)
    (hsid : spreadsheet_id ≠ "") (ht : t ≠ "")
    (hmem : t ∉ env.sheetTitles spreadsheet_id) :
    upload_google_sheets_file env parse file_name sourceLines starting_cell
        spreadsheet_id (some t)
      = [Event.getSpreadsheet spreadsheet_id,
         Event.addSheet spreadsheet_id (some t),
         Event.valuesBatchUpdate spreadsheet_id
           (uploadRange starting_cell (some t))
           (readCsvData parse sourceLines)] ∧
    ((upload_google_sheets_file env parse file_name sourceLines starting_cell
        spreadsheet_id (some t)).filter isAddSheet).length = 1 ∧
    download_google_sheet_file env spreadsheet_id file_name (some t)
        cell_range dest
      = ([Event.getSpreadsheet spreadsheet_id], Outcome.sysExit 1) ∧
    (∀ e ∈ (download_google_sheet_file env spreadsheet_id file_name (some t)
        cell_range dest).1, isLocalWrite e = false) := by
  have hbe : (spreadsheet_id == "") = false := by simp [hsid]
  have hwb : check_workbook_exists (env.sheetTitles spreadsheet_id) (some t)
      = false := by
    cases h : check_workbook_exists (env.sheetTitles spreadsheet_id) (some t)
    · rfl
    · exact absurd ((check_workbook_exists_some _ _).mp h) hmem
  have htr : optTruthy (some t) = true := by simp [optTruthy, ht]
  have hup : upload_google_sheets_file env parse file_name sourceLines
        starting_cell spreadsheet_id (some t)
      = [Event.getSpreadsheet spreadsheet_id,
         Event.addSheet spreadsheet_id (some t),
         Event.valuesBatchUpdate spreadsheet_id
           (uploadRange starting_cell (some t))
           (readCsvData parse sourceLines)] := by
    rw [upload_file_trace env parse file_name sourceLines starting_cell
      spreadsheet_id (some t) hbe, hwb]
    simp
  have hdl : download_google_sheet_file env spreadsheet_id file_name (some t)
        cell_range dest
      = ([Event.getSpreadsheet spreadsheet_id], Outcome.sysExit 1) := by
    simp [download_google_sheet_file, htr, hwb]
  refine ⟨hup, ?_, hdl, ?_⟩
  · rw [hup]
    simp [List.filter, isAddSheet]
  · rw [hdl]
    intro e he
    simp at he
    subst he
    rfl

/-- Witness for C6 at a concrete input: tab `Tab2` absent from the single
sheet `Tab1`. -/
theorem c6_witness :
    ("found-id" ≠ "" ∧ "Tab2" ≠ "" ∧
      "Tab2" ∉ envFound.sheetTitles "found-id") ∧
    (upload_google_sheets_file envFound parseCells "report" ["x"] "A1"
        "found-id" (some "Tab2")
      = [Event.getSpreadsheet "found-id",
         Event.addSheet "found-id" (some "Tab2"),
         Event.valuesBatchUpdate "found-id" (uploadRange "A1" (some "Tab2"))
           (readCsvData parseCells ["x"])] ∧
      ((upload_google_sheets_file envFound parseCells "report" ["x"] "A1"
          "found-id" (some "Tab2")).filter isAddSheet).length = 1 ∧
      download_google_sheet_file envFound "found-id" "report" (some "Tab2")
          "A1:B2" "out.csv"
        = ([Event.getSpreadsheet "found-id"], Outcome.sysExit 1) ∧
      (∀ e ∈ (download_google_sheet_file envFound "found-id" "report"
          (some "Tab2") "A1:B2" "out.csv").1, isLocalWrite e = false)) :=
  ⟨⟨by decide, by decide, by decide⟩,
    c6_absent_tab envFound parseCells ["x"] "report" "found-id" "Tab2" "A1"
      "A1:B2" "out.csv" (by decide) (by decide) (by decide)⟩

/-- Claim C7: with a (non-empty) tab name given, download performs the
tab-existence check (`spreadsheets().get`) before any read — its first
event is the check, and when the check fails nothing else happens — while
clear performs no existence check at all and issues the clear directly on
`tab!range`. -/
theorem c7_check_asymmetry (env : RemoteEnv)
    (spreadsheet_id file_name t cell_range dest : String)
    (hsid : spreadsheet_id ≠ "") (ht : t ≠ "") :
    (download_google_sheet_file env spreadsheet_id file_name (some t)
        cell_range dest).1.head?
      = some (Event.getSpreadsheet spreadsheet_id) ∧
    (check_workbook_exists (env.sheetTitles spreadsheet_id) (some t) = false →
      download_google_sheet_file env spreadsheet_id file_name (some t)
          cell_range dest
        = ([Event.getSpreadsheet spreadsheet_id], Outcome.sysExit 1)) ∧
    clear_google_sheet env file_name cell_range spreadsheet_id (some t)
      = [Event.valuesClear spreadsheet_id (t ++ "!" ++ cell_range)] ∧
    (∀ e ∈ clear_google_sheet env file_name cell_range spreadsheet_id
        (some t), isGetSpreadsheet e = false) := by
  have htr : optTruthy (some t) = true := by simp [optTruthy, ht]
  have hbe : (spreadsheet_id == "") = false := by simp [hsid]
  have hclear : clear_google_sheet env file_name cell_range spreadsheet_id
        (some t)
      = [Event.valuesClear spreadsheet_id (t ++ "!" ++ cell_range)] := by
    simp [clear_google_sheet, hbe, qualifyRange, htr]
  refine ⟨?_, ?_, hclear, ?_⟩
  · by_cases hwb :
        check_workbook_exists (env.sheetTitles spreadsheet_id) (some t)
    · by_cases hv : (env.valuesGet spreadsheet_id
          (t ++ "!" ++ cell_range)).isEmpty
      · simp [download_google_sheet_file, htr, hwb, hv]
      · simp [download_google_sheet_file, htr, hwb, hv]
    · simp [download_google_sheet_file, htr, hwb]
  · intro hwb
    simp [download_google_sheet_file, htr, hwb]
  · rw [hclear]
    intro e he
    simp at he
    subst he
    rfl

/-- Witness for C7 at a concrete input. -/
theorem c7_witness :
    ("found-id" ≠ "" ∧ "Tab9" ≠ "") ∧
    ((download_google_sheet_file envFound "found-id" "report" (some "Tab9")
        "A1:B2" "out.csv").1.head?
      = some (Event.getSpreadsheet "found-id") ∧
    (check_workbook_exists (envFound.sheetTitles "found-id") (some "Tab9")
        = false →
      download_google_sheet_file envFound "found-id" "report" (some "Tab9")
          "A1:B2" "out.csv"
        = ([Event.getSpreadsheet "found-id"], Outcome.sysExit 1)) ∧
    clear_google_sheet envFound "report" "A1:B2" "found-id" (some "Tab9")
      = [Event.valuesClear "found-id" ("Tab9" ++ "!" ++ "A1:B2")] ∧
    (∀ e ∈ clear_google_sheet envFound "report" "A1:B2" "found-id"
        (some "Tab9"), isGetSpreadsheet e = false)) :=
  ⟨⟨by decide, by decide⟩,
    c7_check_asymmetry envFound "found-id" "report" "Tab9" "A1:B2" "out.csv"
      (by decide) (by decide)⟩

/-- Claim C8: when the remote read returns no values (and, if a tab was
given, the tab check passed so the read is actually reached), download
completes normally and writes no local file. -/
theorem c8_empty_values_no_write (env : RemoteEnv)
    (spreadsheet_id file_name cell_range dest : String)
    (tab_name : Option String)
    (hcheck : optTruthy tab_name = true →
      check_workbook_exists (env.sheetTitles spreadsheet_id) tab_name = true)
    (hvals : env.valuesGet spreadsheet_id (qualifyRange tab_name cell_range)
      = []) :
    (download_google_sheet_file env spreadsheet_id file_name tab_name
        cell_range dest).2 = Outcome.ok ∧
    (∀ e ∈ (download_google_sheet_file env spreadsheet_id file_name tab_name
        cell_range dest).1, isLocalWrite e = false) := by
  by_cases htr : optTruthy tab_name
  · have hwb := hcheck htr
    rw [qualifyRange, if_pos htr] at hvals
    have hdl : download_google_sheet_file env spreadsheet_id file_name
          tab_name cell_range dest
        = ([Event.getSpreadsheet spreadsheet_id,
            Event.valuesGet spreadsheet_id
              (tab_name.getD "" ++ "!" ++ cell_range)], Outcome.ok) := by
      simp [download_google_sheet_file, htr, hwb, hvals]
    rw [hdl]
    refine ⟨rfl, ?_⟩
    intro e he
    simp at he
    rcases he with rfl | rfl <;> rfl
  · rw [qualifyRange, if_neg htr] at hvals
    have hdl : download_google_sheet_file env spreadsheet_id file_name
          tab_name cell_range dest
        = ([Event.valuesGet spreadsheet_id cell_range], Outcome.ok) := by
      simp [download_google_sheet_file, htr, hvals]
    rw [hdl]
    refine ⟨rfl, ?_⟩
    intro e he
    simp at he
    subst he
    rfl

/-- Witness for C8 at a concrete input: tab `Tab1` exists and every range
of `envFound` is empty. -/
theorem c8_witness :
    ((optTruthy (some "Tab1") = true →
        check_workbook_exists (envFound.sheetTitles "found-id") (some "Tab1")
          = true) ∧
      envFound.valuesGet "found-id" (qualifyRange (some "Tab1") "A1:B2")
        = []) ∧
    ((download_google_sheet_file envFound "found-id" "report" (some "Tab1")
        "A1:B2" "out.csv").2 = Outcome.ok ∧
      (∀ e ∈ (download_google_sheet_file envFound "found-id" "report"
          (some "Tab1") "A1:B2" "out.csv").1, isLocalWrite e = false)) :=
  ⟨⟨by decide, by decide⟩,
    c8_empty_values_no_write envFound "found-id" "report" "A1:B2" "out.csv"
      (some "Tab1") (by decide) (by decide)⟩

/-- Claim C9: the rows collected for upload are exactly the csv-parsed
rows of the NUL-stripped lines with the non-empty all-empty-cell rows
dropped — equivalently, the rows kept are those with no cells or with some
non-empty cell — in their original order (a sublist of the parsed rows),
and no line handed to the csv reader contains a NUL byte. -/
theorem c9_upload_rows (parse : List String → List (List String))
    (lines : List String) :
    readCsvData parse lines
      = (parse (lines.map stripNul)).filter (fun row => !emptyRowSet row) ∧
    readCsvData parse lines
      = (parse (lines.map stripNul)).filter
          (fun row => row.isEmpty || row.any (fun c => !(c == ""))) ∧
    List.Sublist (readCsvData parse lines) (parse (lines.map stripNul)) ∧
    (lines.map stripNul).all
        (fun s => s.data.all (fun c => !(c == Char.ofNat 0))) = true := by
  have h1 : readCsvData parse lines
      = (parse (lines.map stripNul)).filter (fun row => !emptyRowSet row) := by
    unfold readCsvData
    rw [foldl_skip_filter]
    simp
  have hpred : ∀ row : List String,
      (!emptyRowSet row)
        = (row.isEmpty || row.any (fun c => !(c == ""))) := by
    intro row
    cases row with
    | nil => rfl
    | cons a l =>
      simp [emptyRowSet, List.not_all_eq_any_not, Bool.not_and]
  have h2 : readCsvData parse lines
      = (parse (lines.map stripNul)).filter
          (fun row => row.isEmpty || row.any (fun c => !(c == ""))) :=
    h1.trans (List.filter_congr (fun row _ => hpred row))
  refine ⟨h1, h2, ?_, ?_⟩
  · rw [h1]
    exact List.filter_sublist _
  · simp only [List.all_eq_true, List.mem_map]
    rintro s ⟨x, _, rfl⟩
    intro c hc
    exact (List.mem_filter.mp hc).2

/-- Claim C10: upload with `tab_name` absent (`None`) still performs the
tab-existence check and, since no sheet title ever equals `None`, always
issues the add-sheet mutation with title `None` before the write. -/
theorem c10_none_tab_still_ensured (env : RemoteEnv)
    (parse : List String → List (List String)) (sourceLines : List String)
    (file_name spreadsheet_id starting_cell : String)
    (hsid : spreadsheet_id ≠ "") :
    upload_google_sheets_file env parse file_name sourceLines starting_cell
        spreadsheet_id none
      = [Event.getSpreadsheet spreadsheet_id,
         Event.addSheet spreadsheet_id none,
         Event.valuesBatchUpdate spreadsheet_id
           (uploadRange starting_cell none)
           (readCsvData parse sourceLines)] ∧
    (∀ titles : List String, check_workbook_exists titles none = false) := by
  have hbe : (spreadsheet_id == "") = false := by simp [hsid]
  refine ⟨?_, check_workbook_exists_none⟩
  rw [upload_file_trace env parse file_name sourceLines starting_cell
    spreadsheet_id none hbe, check_workbook_exists_none]
  simp

/-- Witness for C10 at a concrete input. -/
theorem c10_witness :
    ("found-id" ≠ "") ∧
    (upload_google_sheets_file envFound parseCells "report" ["x"] "A1"
        "found-id" none
      = [Event.getSpreadsheet "found-id",
         Event.addSheet "found-id" none,
         Event.valuesBatchUpdate "found-id" (uploadRange "A1" none)
           (readCsvData parseCells ["x"])] ∧
      (∀ titles : List String, check_workbook_exists titles none = false)) :=
  ⟨by decide,
    c10_none_tab_still_ensured envFound parseCells ["x"] "report" "found-id"
      "A1" (by decide)⟩

end GSB
